import Mathlib

/-!
Shallow embedding of the On-Model Assistant core (src/types.ts: the type
declarations and the App component). TypeScript string-literal unions become
inductive types; React `useState` cells become fields of `AppState`; each
event handler becomes a pure state-transition function. `localStorage` reads
are modelled as an abstract stored record: `none` when the key is absent,
`Except.error` when `JSON.parse` throws, `Except.ok` when it parses.
-/

namespace OgCorrection

/-- CorrectionMode from src/types.ts: 'Proportion (Mode A)' | 'Conditioned (Mode B)'. -/
inductive CorrectionMode where
  | proportionModeA
  | conditionedModeB
deriving DecidableEq

/-- AngleTag from src/types.ts: 'Front' | '3/4 View' | 'Profile' | 'Upshot' | 'Downshot' | 'Generic'. -/
inductive AngleTag where
  | front
  | threeQuarterView
  | profile
  | upshot
  | downshot
  | generic
deriving DecidableEq

/-- AutoCorrectionScope from src/types.ts: 'Full Image' | 'Face Priority' | 'Clothing Priority' | 'Hands Priority'. -/
inductive AutoCorrectionScope where
  | fullImage
  | facePriority
  | clothingPriority
  | handsPriority
deriving DecidableEq

/-- CorrectionSettings from src/types.ts. TypeScript `number` is modelled as `Int`. -/
structure CorrectionSettings where
  strength : Int
  linePreservation : Int
  mode : CorrectionMode
  angleTag : AngleTag
  scope : AutoCorrectionScope
  absoluteLineFidelity : Bool
deriving DecidableEq

/-- ViewMode from src/types.ts: 'Before' | 'After' | 'Overlay'. -/
inductive ViewMode where
  | before
  | after
  | overlay
deriving DecidableEq

/-- CorrectionMetrics from src/types.ts; numeric fields are carried opaquely as rationals. -/
structure CorrectionMetrics where
  mask_coverage : ℚ
  denoise_used : ℚ
  diff_in_mask : ℚ
  diff_outside_mask : ℚ
  absolute_line_fidelity : Bool
deriving DecidableEq

/-- ReferenceImage from src/types.ts (image payloads are opaque strings). -/
structure ReferenceImage where
  id : String
  packId : String
  data : String
  tags : List String
  similarity : Option ℚ
deriving DecidableEq

/-- ReferencePack from src/types.ts. -/
structure ReferencePack where
  id : String
  name : String
  description : String
  images : List ReferenceImage
  createdAt : Nat
deriving DecidableEq

/-- EditSession from src/types.ts. -/
structure EditSession where
  id : String
  originalImage : String
  resultImage : String
  settings : CorrectionSettings
  timestamp : Nat
  metrics : CorrectionMetrics
deriving DecidableEq

/-- Image dimensions, as the `imageDimensions` state `{width, height}`. -/
structure Dimensions where
  width : Nat
  height : Nat
deriving DecidableEq

/-- The default settings literal returned by the `settings` state initializer
(src/types.ts lines 98-105). -/
def defaultSettings : CorrectionSettings :=
  { strength := 50
    linePreservation := 85
    mode := CorrectionMode.proportionModeA
    angleTag := AngleTag.threeQuarterView
    scope := AutoCorrectionScope.fullImage
    absoluteLineFidelity := true }

/-- A stored settings record as produced by `JSON.parse`: each field may be
missing, since nothing in the loader checks the parsed shape. -/
structure StoredSettings where
  strength : Option Int
  linePreservation : Option Int
  mode : Option CorrectionMode
  angleTag : Option AngleTag
  scope : Option AutoCorrectionScope
  absoluteLineFidelity : Option Bool
deriving DecidableEq

/-- The fully-populated stored form of `defaultSettings`. -/
def defaultStoredSettings : StoredSettings :=
  { strength := some 50
    linePreservation := some 85
    mode := some CorrectionMode.proportionModeA
    angleTag := some AngleTag.threeQuarterView
    scope := some AutoCorrectionScope.fullImage
    absoluteLineFidelity := some true }

/-- A persisted record: `none` when the key is absent, `Except.error` when
`JSON.parse` throws on the stored string, `Except.ok` with the parsed value. -/
def StoredRecord (α : Type) : Type := Option (Except Unit α)

/-- The `settings` state initializer (src/types.ts lines 93-106): returns the
parsed record verbatim when parsing succeeds, the built-in defaults otherwise. -/
def loadSettings (saved : StoredRecord StoredSettings) : StoredSettings :=
  match saved with
  | some (Except.ok p) => p
  | _ => defaultStoredSettings

/-- The two seed packs built by the `packs` state initializer
(src/types.ts lines 77-80); `now` stands for `Date.now()`. -/
def seedPacks (now : Nat) : List ReferencePack :=
  [ { id := "1", name := "Standard Anime Eyes", description := "Clean eye references.",
      images := [], createdAt := now },
    { id := "2", name := "Profile Jawlines", description := "Sharp chin silhouttes.",
      images := [], createdAt := now } ]

/-- The `packs` state initializer (src/types.ts lines 72-81). -/
def loadPacks (saved : StoredRecord (List ReferencePack)) (now : Nat) : List ReferencePack :=
  match saved with
  | some (Except.ok ps) => ps
  | _ => seedPacks now

/-- The `selectedPackIds` state initializer (src/types.ts lines 85-91):
falls back to enabling every pack currently loaded. -/
def loadSelectedPackIds (saved : StoredRecord (List String))
    (packs : List ReferencePack) : List String :=
  match saved with
  | some (Except.ok ids) => ids
  | _ => packs.map (fun p => p.id)

/-- The App component's state cells relevant to the verified behavior
(src/types.ts lines 64-106). -/
structure AppState where
  originalImage : Option String
  correctedImage : Option String
  imageDimensions : Dimensions
  isProcessing : Bool
  errorMsg : Option String
  viewMode : ViewMode
  history : List EditSession
  settings : CorrectionSettings
deriving DecidableEq

/-- The initial App state: `viewMode` is initialized to `'After'`
(src/types.ts line 69); `loaded` is whatever the settings initializer produced. -/
def initState (loaded : CorrectionSettings) : AppState :=
  { originalImage := none
    correctedImage := none
    imageDimensions := { width := 1024, height := 1024 }
    isProcessing := false
    errorMsg := none
    viewMode := ViewMode.after
    history := []
    settings := loaded }

/-- The success branch of `handleFileUpload` (src/types.ts lines 123-140):
once the file is read and the image decoded, it stores the dimensions and the
new source, clears the result and the error. It does not touch `viewMode`. -/
def handleFileUpload (st : AppState) (base64 : String) (dims : Dimensions) : AppState :=
  { st with imageDimensions := dims
            originalImage := some base64
            correctedImage := none
            errorMsg := none }

/-- Outcome of the awaited `correctArt` provider call: success with a result
image and metrics, a thrown `CorrectionFailedError` carrying a message, or any
other thrown error. -/
inductive ProviderOutcome where
  | ok (resultImage : String) (metrics : CorrectionMetrics)
  | correctionFailed (msg : String)
  | otherFailure
deriving DecidableEq

/-- Result of one invocation of `handleRunCorrection`: the new state, plus
whether the external provider was actually invoked. -/
structure RunResult where
  state : AppState
  providerInvoked : Bool
deriving DecidableEq

/-- The history update inside `handleRunCorrection` (src/types.ts line 160):
`[newSession, ...prev].slice(0, 20)`. -/
def historyAppend (s : EditSession) (prev : List EditSession) : List EditSession :=
  (s :: prev).take 20

/-- `handleRunCorrection` (src/types.ts lines 142-167). With no source image it
sets the error "Upload an image first." and returns without calling the
provider. Otherwise it clears the error, calls the provider, and on success
stores the result, prepends a session holding a snapshot `{...settings}` of the
current settings, and switches the view to After; on failure it surfaces the
`CorrectionFailedError` message, or the generic interruption message for any
other error. The `finally` clause always leaves `isProcessing` false.
`newId` and `now` stand for the two `Date.now()` reads. -/
def handleRunCorrection (st : AppState) (provider : ProviderOutcome)
    (newId : String) (now : Nat) : RunResult :=
  match st.originalImage with
  | none =>
      { state := { st with errorMsg := some "Upload an image first." }
        providerInvoked := false }
  | some orig =>
      match provider with
      | ProviderOutcome.ok resultImage metrics =>
          let newSession : EditSession :=
            { id := newId, originalImage := orig, resultImage := resultImage,
              settings := st.settings, timestamp := now, metrics := metrics }
          { state := { st with errorMsg := none
                               correctedImage := some resultImage
                               history := historyAppend newSession st.history
                               viewMode := ViewMode.after
                               isProcessing := false }
            providerInvoked := true }
      | ProviderOutcome.correctionFailed msg =>
          { state := { st with errorMsg := some msg, isProcessing := false }
            providerInvoked := true }
      | ProviderOutcome.otherFailure =>
          { state := { st with errorMsg := some "Refinement process interrupted."
                               isProcessing := false }
            providerInvoked := true }

/-- `handlePromoteToSource` (src/types.ts lines 169-176): guarded on a result
being present; promotes the result to the new source, clears the result and
error, and resets the view to Before. -/
def handlePromoteToSource (st : AppState) : AppState :=
  match st.correctedImage with
  | none => st
  | some img =>
      { st with originalImage := some img
                correctedImage := none
                viewMode := ViewMode.before
                errorMsg := none }

/-- Whether the Before/After/Overlay button for mode `m` is disabled
(src/types.ts line 341): `mode !== 'Before' && !correctedImage`. -/
def viewModeButtonDisabled (st : AppState) (m : ViewMode) : Bool :=
  decide (m ≠ ViewMode.before) && st.correctedImage.isNone

/-- Clicking the view-mode button for `m`: a disabled button never fires its
`onClick`, so the click is a no-op; otherwise `setViewMode(mode)`. -/
def clickViewModeButton (st : AppState) (m : ViewMode) : AppState :=
  if viewModeButtonDisabled st m then st else { st with viewMode := m }

/-- A settings edit: every settings control calls `setSettings` with a fresh
object, replacing the settings state wholesale. -/
def updateSettings (st : AppState) (s : CorrectionSettings) : AppState :=
  { st with settings := s }

/-- `clearHistory` after the user confirms (src/types.ts lines 188-192). -/
def clearHistory (st : AppState) : AppState :=
  { st with history := [] }

/-- Whether the Auto-Refine trigger is disabled (src/types.ts line 233):
`isProcessing || !originalImage`. -/
def runTriggerDisabled (st : AppState) : Bool :=
  st.isProcessing || st.originalImage.isNone

/-- Whether the main pane renders the comparison viewer (src/types.ts line
358): `correctedImage && viewMode !== 'Before'`; otherwise it falls back to
displaying the source image alone. -/
def showsComparison (st : AppState) : Bool :=
  st.correctedImage.isSome && decide (st.viewMode ≠ ViewMode.before)

/-- Error raised by settings validation, naming the offending field. -/
structure InvalidSettingError where
  offendingField : String
deriving DecidableEq

/-- Decodes a stored mode string into a `CorrectionMode`, `none` if unknown. -/
def modeOfString (s : String) : Option CorrectionMode :=
  if s = "Proportion (Mode A)" then some CorrectionMode.proportionModeA
  else if s = "Conditioned (Mode B)" then some CorrectionMode.conditionedModeB
  else none

/-- Decodes a stored angle-tag string into an `AngleTag`, `none` if unknown. -/
def angleTagOfString (s : String) : Option AngleTag :=
  if s = "Front" then some AngleTag.front
  else if s = "3/4 View" then some AngleTag.threeQuarterView
  else if s = "Profile" then some AngleTag.profile
  else if s = "Upshot" then some AngleTag.upshot
  else if s = "Downshot" then some AngleTag.downshot
  else if s = "Generic" then some AngleTag.generic
  else none

/-- Decodes a stored scope string into an `AutoCorrectionScope`, `none` if unknown. -/
def scopeOfString (s : String) : Option AutoCorrectionScope :=
  if s = "Full Image" then some AutoCorrectionScope.fullImage
  else if s = "Face Priority" then some AutoCorrectionScope.facePriority
  else if s = "Clothing Priority" then some AutoCorrectionScope.clothingPriority
  else if s = "Hands Priority" then some AutoCorrectionScope.handsPriority
  else none

/-- Raw settings input to normalization: numeric sliders and raw enum strings. -/
structure SettingsInput where
  strength : Int
  linePreservation : Int
  mode : String
  angleTag : String
  scope : String
  absoluteLineFidelity : Bool
deriving DecidableEq

/-- Clamps `x` into `[lo, hi]`. -/
def clampInt (lo hi x : Int) : Int :=
  max lo (min hi x)

/-- Modelled from the spec: the repository's source contains no
`SettingsModel.normalize` implementation (the settings state initializer,
src/types.ts lines 93-106, returns stored values verbatim, and the UI
controls are the only range/enum enforcement). This definition follows the
spec's SettingsModel contract word for word: clamp `strength` into `[1,100]`
and `linePreservation` into `[0,100]`; reject an unknown enum value for
`mode`, `angleTag` or `scope` with an `InvalidSettingError` naming the
offending field. -/
def normalize (inp : SettingsInput) : Except InvalidSettingError CorrectionSettings :=
  match modeOfString inp.mode with
  | none => Except.error { offendingField := "mode" }
  | some m =>
      match angleTagOfString inp.angleTag with
      | none => Except.error { offendingField := "angleTag" }
      | some a =>
          match scopeOfString inp.scope with
          | none => Except.error { offendingField := "scope" }
          | some sc =>
              Except.ok
                { strength := clampInt 1 100 inp.strength
                  linePreservation := clampInt 0 100 inp.linePreservation
                  mode := m
                  angleTag := a
                  scope := sc
                  absoluteLineFidelity := inp.absoluteLineFidelity }

/-- All-history-appends run: folds `historyAppend` over a list of sessions,
oldest append first, starting from the empty history. -/
def appendAll (ss : List EditSession) : List EditSession :=
  ss.foldl (fun acc s => historyAppend s acc) []

/-- A metrics record with all numeric fields zero, used for concrete runs. -/
def zeroMetrics : CorrectionMetrics :=
  { mask_coverage := 0
    denoise_used := 0
    diff_in_mask := 0
    diff_outside_mask := 0
    absolute_line_fidelity := true }

/-- A concrete session with id and timestamp `i`. -/
def mkSession (i : Nat) : EditSession :=
  { id := toString i
    originalImage := "src"
    resultImage := "res"
    settings := defaultSettings
    timestamp := i
    metrics := zeroMetrics }

/-- Twenty-five concrete sessions, in append order. -/
def manySessions : List EditSession :=
  (List.range 25).map mkSession

/-- A state reached after a successful upload: a source image is present,
no result yet. -/
def readyState : AppState :=
  { initState defaultSettings with originalImage := some ("src") }

/-- A state with both a source and a result and the view on After, as reached
after a successful correction run. -/
def afterRunState : AppState :=
  { readyState with correctedImage := some ("res"), viewMode := ViewMode.after }

/-- Alternative settings differing from the defaults, used to model a later
settings edit. -/
def altSettings : CorrectionSettings :=
  { defaultSettings with strength := 99 }

/-- A stored settings record with every field missing, as produced by parsing
the stored string "\x7b\x7d". -/
def emptyStoredSettings : StoredSettings :=
  { strength := none
    linePreservation := none
    mode := none
    angleTag := none
    scope := none
    absoluteLineFidelity := none }

/-- The clamping example input from the spec: strength 150, linePreservation
-5, all enum fields valid. -/
def exampleInput : SettingsInput :=
  { strength := 150
    linePreservation := -5
    mode := "Proportion (Mode A)"
    angleTag := "3/4 View"
    scope := "Full Image"
    absoluteLineFidelity := true }

/-- The rejection example input from the spec: an unknown mode string. -/
def bogusModeInput : SettingsInput :=
  { exampleInput with mode := "Bogus" }

/-! ## Helper lemmas -/

/-- Truncating the second summand early does not change a truncated append. -/
theorem take_append_take (a b : List EditSession) (n : Nat) :
    (a ++ b.take n).take n = (a ++ b).take n := by
  rw [List.take_append_eq_append_take, List.take_append_eq_append_take, List.take_take]
  have hmin : (n - a.length) ⊓ n = n - a.length :=
    Nat.min_eq_left (Nat.sub_le n a.length)
  rw [hmin]

/-- Folding `historyAppend` over a bounded starting history yields the
truncated reverse-append. -/
theorem foldl_historyAppend (ss : List EditSession) :
    ∀ prev : List EditSession, prev.length ≤ 20 →
      ss.foldl (fun acc s => historyAppend s acc) prev = (ss.reverse ++ prev).take 20 := by
  induction ss with
  | nil =>
      intro prev hp
      simpa using (List.take_of_length_le hp).symm
  | cons s rest ih =>
      intro prev hp
      rw [List.foldl_cons]
      have h1 : (historyAppend s prev).length ≤ 20 := by
        simp [historyAppend, List.length_take]
      rw [ih (historyAppend s prev) h1]
      show (rest.reverse ++ (s :: prev).take 20).take 20
          = ((s :: rest).reverse ++ prev).take 20
      rw [take_append_take, List.reverse_cons, List.append_assoc,
        List.singleton_append]

/-! ## Claim theorems -/

/-- Claim C2, counterexample: the `viewMode` state cell is initialized to
`'After'` (src/types.ts line 69), so the machine does not start in `Before`. -/
theorem initial_view_mode_not_before :
    (initState defaultSettings).viewMode ≠ ViewMode.before := by
  decide

/-- Claim C2 (amended): the view-state cell starts in the After state; since
no result image exists initially, the rendered pane nonetheless falls back to
showing the source alone rather than any comparison view. -/
theorem initial_view_mode_after_shows_source (loaded : CorrectionSettings) :
    (initState loaded).viewMode = ViewMode.after ∧
    (initState loaded).correctedImage = none ∧
    showsComparison (initState loaded) = false :=
  ⟨rfl, rfl, rfl⟩

/-- Claim C3, counterexample: starting from a state whose view mode is After
(reached after a successful run), uploading a new source image leaves the view
mode at After — it is not reset to Before. -/
theorem upload_does_not_reset_view_mode :
    (handleFileUpload afterRunState ("new") { width := 2, height := 2 }).viewMode
        ≠ ViewMode.before ∧
    (handleFileUpload afterRunState ("new") { width := 2, height := 2 }).viewMode
        = ViewMode.after := by
  constructor
  · decide
  · rfl

/-- Claim C3 (amended): uploading a new source image stores the new source,
discards the previous result image and clears the error, but leaves the view
mode unchanged; since no result exists afterwards, the rendered pane shows the
new source rather than any comparison view. -/
theorem upload_discards_result_keeps_view_mode (st : AppState) (base64 : String)
    (dims : Dimensions) :
    (handleFileUpload st base64 dims).originalImage = some base64 ∧
    (handleFileUpload st base64 dims).correctedImage = none ∧
    (handleFileUpload st base64 dims).errorMsg = none ∧
    (handleFileUpload st base64 dims).viewMode = st.viewMode ∧
    showsComparison (handleFileUpload st base64 dims) = false :=
  ⟨rfl, rfl, rfl, rfl, rfl⟩

/-- Claim C5: with no result image present, the After and Overlay buttons are
disabled, so an attempted transition to After or Overlay is a no-op rejected at
the boundary — the whole state is unchanged, and in particular a state that was
in Before remains in Before. -/
theorem view_transition_rejected_without_result (st : AppState) (m : ViewMode)
    (hres : st.correctedImage = none) (hm : m ≠ ViewMode.before) :
    clickViewModeButton st m = st ∧
    (st.viewMode = ViewMode.before → (clickViewModeButton st m).viewMode = ViewMode.before) := by
  have hdis : viewModeButtonDisabled st m = true := by
    simp [viewModeButtonDisabled, hres, hm]
  refine ⟨?_, ?_⟩
  · simp [clickViewModeButton, hdis]
  · intro hb
    simp [clickViewModeButton, hdis, hb]

/-- Claim C5, witness: in the uploaded-but-not-yet-corrected state sitting in
Before, clicking the After button changes nothing. -/
theorem view_transition_rejected_witness :
    clickViewModeButton { readyState with viewMode := ViewMode.before } ViewMode.after
        = { readyState with viewMode := ViewMode.before } ∧
    (clickViewModeButton { readyState with viewMode := ViewMode.before } ViewMode.after).viewMode
        = ViewMode.before := by
  have h := view_transition_rejected_without_result
    { readyState with viewMode := ViewMode.before } ViewMode.after rfl (by decide)
  exact ⟨h.1, h.2 rfl⟩

/-- Claim C6: when no source image is present, `handleRunCorrection` returns
immediately with the precondition error "Upload an image first." — a message
distinct from the generic provider-failure message — and the external provider
is never invoked; nothing but the error message changes. -/
theorem run_without_image_precondition (st : AppState) (p : ProviderOutcome)
    (newId : String) (now : Nat) (h : st.originalImage = none) :
    handleRunCorrection st p newId now =
      { state := { st with errorMsg := some ("Upload an image first.") }
        providerInvoked := false } ∧
    (handleRunCorrection st p newId now).providerInvoked = false ∧
    (handleRunCorrection st p newId now).state.errorMsg = some ("Upload an image first.") ∧
    (handleRunCorrection st p newId now).state.history = st.history ∧
    ("Upload an image first." : String) ≠ "Refinement process interrupted." := by
  refine ⟨?_, ?_, ?_, ?_, by decide⟩ <;> simp [handleRunCorrection, h]

/-- Claim C6, witness: from the initial state (no source image), a run attempt
surfaces the precondition error and never reaches the provider. -/
theorem run_without_image_witness :
    (handleRunCorrection (initState defaultSettings) ProviderOutcome.otherFailure ("1") 0).providerInvoked = false ∧
    (handleRunCorrection (initState defaultSettings) ProviderOutcome.otherFailure ("1") 0).state.errorMsg
      = some ("Upload an image first.") :=
  ⟨(run_without_image_precondition (initState defaultSettings) ProviderOutcome.otherFailure ("1") 0 rfl).2.1,
   (run_without_image_precondition (initState defaultSettings) ProviderOutcome.otherFailure ("1") 0 rfl).2.2.1⟩

/-- Claim C7: when the provider call fails, the surfaced message is the
provider-supplied one for a `CorrectionFailedError` and the generic
"Refinement process interrupted." otherwise; in both cases the attempt ends
with `isProcessing` false (so the trigger is re-enabled), and nothing else
changes — no session is appended and no result image is set. -/
theorem run_provider_failure_surfaces_error (st : AppState) (img newId : String)
    (now : Nat) (h : st.originalImage = some img) :
    (∀ msg, (handleRunCorrection st (ProviderOutcome.correctionFailed msg) newId now).state =
      { st with errorMsg := some msg, isProcessing := false }) ∧
    (handleRunCorrection st ProviderOutcome.otherFailure newId now).state =
      { st with errorMsg := some ("Refinement process interrupted."), isProcessing := false } ∧
    (∀ msg, runTriggerDisabled
      (handleRunCorrection st (ProviderOutcome.correctionFailed msg) newId now).state = false) ∧
    runTriggerDisabled (handleRunCorrection st ProviderOutcome.otherFailure newId now).state = false := by
  refine ⟨fun msg => ?_, ?_, fun msg => ?_, ?_⟩ <;>
    simp [handleRunCorrection, h, runTriggerDisabled]

/-- Claim C7, witness: in the uploaded state, a provider failure with message
"quota exceeded" surfaces exactly that message, and a non-provider error
surfaces the generic interruption message; history and result are untouched. -/
theorem run_provider_failure_witness :
    (handleRunCorrection readyState (ProviderOutcome.correctionFailed ("quota exceeded")) ("1") 0).state =
      { readyState with errorMsg := some ("quota exceeded"), isProcessing := false } ∧
    (handleRunCorrection readyState ProviderOutcome.otherFailure ("1") 0).state =
      { readyState with errorMsg := some ("Refinement process interrupted."), isProcessing := false } :=
  ⟨(run_provider_failure_surfaces_error readyState ("src") ("1") 0 rfl).1 ("quota exceeded"),
   (run_provider_failure_surfaces_error readyState ("src") ("1") 0 rfl).2.1⟩

/-- Claim C10: promote-to-source with no result present is a complete no-op —
the whole state, in particular original image, result image, view mode and
error message, is exactly as before; with a result present it promotes the
result to the new source, clears the result and the error, and resets the view
to Before. -/
theorem promote_frame_and_effect (st : AppState) :
    (st.correctedImage = none → handlePromoteToSource st = st) ∧
    (∀ r, st.correctedImage = some r →
      handlePromoteToSource st =
        { st with originalImage := some r, correctedImage := none,
                  viewMode := ViewMode.before, errorMsg := none }) := by
  refine ⟨fun h => ?_, fun r h => ?_⟩ <;> simp [handlePromoteToSource, h]

/-- Claim C10, witness: promoting in the initial state (no result) changes
nothing; promoting in the after-run state installs the result as the new
source, clears it, and returns the view to Before. -/
theorem promote_witness :
    handlePromoteToSource (initState defaultSettings) = initState defaultSettings ∧
    handlePromoteToSource afterRunState =
      { afterRunState with originalImage := some ("res"), correctedImage := none,
                           viewMode := ViewMode.before, errorMsg := none } :=
  ⟨(promote_frame_and_effect (initState defaultSettings)).1 rfl,
   (promote_frame_and_effect afterRunState).2 ("res") rfl⟩

/-- Claim C4: the history built by repeatedly applying the append of
`handleRunCorrection` (`[newSession, ...prev].slice(0, 20)`) is the reverse of
the append order truncated to 20 — i.e. newest-first and capped at 20, with
appends beyond the cap evicting the oldest — and any 25 (or more) appends
leave exactly 20 entries. -/
theorem history_newest_first_capped (ss : List EditSession) :
    appendAll ss = ss.reverse.take 20 ∧
    (appendAll ss).length ≤ 20 ∧
    (25 ≤ ss.length → (appendAll ss).length = 20) := by
  have h : appendAll ss = (ss.reverse ++ []).take 20 :=
    foldl_historyAppend ss [] (by simp)
  rw [List.append_nil] at h
  refine ⟨h, ?_, fun h25 => ?_⟩
  · rw [h, List.length_take]
    omega
  · rw [h, List.length_take, List.length_reverse]
    omega

/-- Claim C4, witness: appending 25 concrete sessions in sequence retains
exactly the 20 most recent, newest-first. -/
theorem history_capped_witness :
    25 ≤ manySessions.length ∧
    appendAll manySessions = manySessions.reverse.take 20 ∧
    (appendAll manySessions).length = 20 := by
  have hlen : manySessions.length = 25 := by
    simp [manySessions]
  refine ⟨by omega, (history_newest_first_capped manySessions).1,
    (history_newest_first_capped manySessions).2.2 (by omega)⟩

/-- Claim C8: a successful run records a session whose `settings` field is a
snapshot of the settings at run time; replacing the current settings afterwards
leaves the history untouched, and every entry of the new history is either the
freshly created session or an entry of the previous history, unchanged —
entries are never mutated after insertion. -/
theorem sessions_snapshot_settings (st : AppState) (img res newId : String)
    (m : CorrectionMetrics) (now : Nat) (snew : CorrectionSettings)
    (h : st.originalImage = some img) :
    (updateSettings (handleRunCorrection st (ProviderOutcome.ok res m) newId now).state snew).history
      = (handleRunCorrection st (ProviderOutcome.ok res m) newId now).state.history ∧
    (handleRunCorrection st (ProviderOutcome.ok res m) newId now).state.history
      = { id := newId, originalImage := img, resultImage := res,
          settings := st.settings, timestamp := now, metrics := m } :: st.history.take 19 ∧
    (∀ e ∈ (handleRunCorrection st (ProviderOutcome.ok res m) newId now).state.history,
      e.settings = st.settings ∨ e ∈ st.history) := by
  have hh : (handleRunCorrection st (ProviderOutcome.ok res m) newId now).state.history
      = { id := newId, originalImage := img, resultImage := res,
          settings := st.settings, timestamp := now, metrics := m } :: st.history.take 19 := by
    simp [handleRunCorrection, h, historyAppend, List.take_succ_cons]
  refine ⟨rfl, hh, fun e he => ?_⟩
  rw [hh] at he
  rcases List.mem_cons.mp he with h1 | h2
  · left
    rw [h1]
  · right
    exact List.take_subset 19 st.history h2

/-- Claim C8, witness: running a correction in the uploaded state and then
editing the settings leaves the single recorded entry carrying the original
default settings, not the edited ones. -/
theorem sessions_snapshot_witness :
    (updateSettings (handleRunCorrection readyState (ProviderOutcome.ok ("res") zeroMetrics) ("1") 0).state altSettings).history
      = (handleRunCorrection readyState (ProviderOutcome.ok ("res") zeroMetrics) ("1") 0).state.history ∧
    (handleRunCorrection readyState (ProviderOutcome.ok ("res") zeroMetrics) ("1") 0).state.history
      = [{ id := "1", originalImage := "src", resultImage := "res",
           settings := defaultSettings, timestamp := 0, metrics := zeroMetrics }] := by
  have hw := sessions_snapshot_settings readyState ("src") ("res") ("1") zeroMetrics 0 altSettings rfl
  exact ⟨hw.1, hw.2.1⟩

/-- Claim C9, counterexample: a persisted settings record that parses but has
every field missing is returned verbatim by the loader — missing fields do not
fall back to the defaults. -/
theorem load_settings_missing_fields_not_defaulted :
    loadSettings (some (Except.ok emptyStoredSettings)) = emptyStoredSettings ∧
    (loadSettings (some (Except.ok emptyStoredSettings))).strength = none ∧
    defaultStoredSettings.strength = some 50 ∧
    loadSettings (some (Except.ok emptyStoredSettings)) ≠ defaultStoredSettings := by
  refine ⟨rfl, rfl, rfl, ?_⟩
  decide

/-- Claim C9 (amended): a corrupt or unreadable persisted record never crashes
loading and falls back silently to the built-in defaults — the two seed packs,
the default settings (strength 50, linePreservation 85, mode Proportion,
angleTag 3/4 View, scope Full Image, absoluteLineFidelity true), and all
currently loaded packs enabled; a record that parses, however, is returned
verbatim, with no per-field fallback for missing or unknown fields. -/
theorem load_fallback_defaults (now : Nat) :
    loadPacks none now = seedPacks now ∧
    loadPacks (some (Except.error ())) now = seedPacks now ∧
    (seedPacks now).length = 2 ∧
    loadSettings none = defaultStoredSettings ∧
    loadSettings (some (Except.error ())) = defaultStoredSettings ∧
    defaultStoredSettings =
      { strength := some 50, linePreservation := some 85,
        mode := some CorrectionMode.proportionModeA,
        angleTag := some AngleTag.threeQuarterView,
        scope := some AutoCorrectionScope.fullImage,
        absoluteLineFidelity := some true } ∧
    (∀ packs, loadSelectedPackIds none packs = packs.map (fun p => p.id)) ∧
    (∀ packs, loadSelectedPackIds (some (Except.error ())) packs = packs.map (fun p => p.id)) ∧
    (∀ p, loadSettings (some (Except.ok p)) = p) :=
  ⟨rfl, rfl, rfl, rfl, rfl, rfl, fun _ => rfl, fun _ => rfl, fun _ => rfl⟩

/-- Claim C1: `normalize` clamps `strength` into `[1, 100]` and
`linePreservation` into `[0, 100]` on every accepted input, and rejects an
unknown enum value for `mode`, `angleTag` or `scope` with an
`InvalidSettingError` naming exactly the offending field; on inputs whose enum
fields are all known it always succeeds with the clamped values. -/
theorem normalize_clamps_and_rejects (inp : SettingsInput) :
    (∀ s, normalize inp = Except.ok s →
      s.strength = clampInt 1 100 inp.strength ∧
      s.linePreservation = clampInt 0 100 inp.linePreservation ∧
      1 ≤ s.strength ∧ s.strength ≤ 100 ∧
      0 ≤ s.linePreservation ∧ s.linePreservation ≤ 100) ∧
    (modeOfString inp.mode = none →
      normalize inp = Except.error { offendingField := "mode" }) ∧
    (∀ m, modeOfString inp.mode = some m → angleTagOfString inp.angleTag = none →
      normalize inp = Except.error { offendingField := "angleTag" }) ∧
    (∀ m a, modeOfString inp.mode = some m → angleTagOfString inp.angleTag = some a →
      scopeOfString inp.scope = none →
      normalize inp = Except.error { offendingField := "scope" }) ∧
    (∀ m a sc, modeOfString inp.mode = some m → angleTagOfString inp.angleTag = some a →
      scopeOfString inp.scope = some sc →
      normalize inp = Except.ok
        { strength := clampInt 1 100 inp.strength
          linePreservation := clampInt 0 100 inp.linePreservation
          mode := m, angleTag := a, scope := sc
          absoluteLineFidelity := inp.absoluteLineFidelity }) := by
  have hb1 : ∀ x : Int, 1 ≤ clampInt 1 100 x ∧ clampInt 1 100 x ≤ 100 := by
    intro x
    unfold clampInt
    omega
  have hb0 : ∀ x : Int, 0 ≤ clampInt 0 100 x ∧ clampInt 0 100 x ≤ 100 := by
    intro x
    unfold clampInt
    omega
  refine ⟨?_, ?_, ?_, ?_, ?_⟩
  · intro s hs
    unfold normalize at hs
    rcases hm : modeOfString inp.mode with _ | m <;> rw [hm] at hs
    · cases hs
    rcases ha : angleTagOfString inp.angleTag with _ | a <;> rw [ha] at hs
    · cases hs
    rcases hsc : scopeOfString inp.scope with _ | sc <;> rw [hsc] at hs
    · cases hs
    cases hs
    exact ⟨rfl, rfl, (hb1 inp.strength).1, (hb1 inp.strength).2,
      (hb0 inp.linePreservation).1, (hb0 inp.linePreservation).2⟩
  · intro hm
    unfold normalize
    rw [hm]
  · intro m hm ha
    unfold normalize
    rw [hm, ha]
  · intro m a hm ha hsc
    unfold normalize
    rw [hm, ha, hsc]
  · intro m a sc hm ha hsc
    unfold normalize
    rw [hm, ha, hsc]

/-- Claim C1, witness: the spec's example input with strength 150 and
linePreservation -5 and valid enums normalizes to strength 100 and
linePreservation 0, and the same input with the unknown mode "Bogus" is
rejected with an error naming `mode`. -/
theorem normalize_clamps_witness :
    normalize exampleInput = Except.ok
      { strength := 100, linePreservation := 0,
        mode := CorrectionMode.proportionModeA,
        angleTag := AngleTag.threeQuarterView,
        scope := AutoCorrectionScope.fullImage,
        absoluteLineFidelity := true } ∧
    normalize bogusModeInput = Except.error { offendingField := "mode" } := by
  have h1 := (normalize_clamps_and_rejects exampleInput).2.2.2.2
    CorrectionMode.proportionModeA AngleTag.threeQuarterView AutoCorrectionScope.fullImage
    (by decide) (by decide) (by decide)
  have h2 := (normalize_clamps_and_rejects bogusModeInput).2.1 (by decide)
  refine ⟨?_, h2⟩
  rw [h1]
  rfl

end OgCorrection
